import Mathlib

/-!
Verification of the kodegend IPC wire-protocol schema (`src/lib.rs` of
`kodegend-protocol-ipc`).  The crate contains only the serde type
definitions shared between the kodegend daemon and its IPC clients; the
data model below is a direct shallow embedding of those Rust structs.
Machine integers (`u16`, `u32`, `u64`, `usize`) are embedded as `Nat`,
`i64` as `Int`, and the single `f64` field (`success_rate`) as `Rat`,
since the properties in question are exact arithmetic statements.
The daemon-side code that constructs these values (the aggregator and the
service supervisor) is not part of this crate; where a claim is about that
code it is modelled from the spec, and each such definition carries a
doc comment saying so.
-/

namespace KodegendIpc

/-- `std::time::Duration`: serde-serialized as a struct with `secs` and
`nanos` fields. -/
structure Duration where
  secs : Nat
  nanos : Nat
deriving DecidableEq

/-- `StatusQuery` from `src/lib.rs`: the request enum sent by the CLI. -/
inductive StatusQuery where
  | All : StatusQuery
  | Service (name : String) : StatusQuery
  | UsageStats (connection_id : String) : StatusQuery
  | ToolHistory (connection_id : String) : StatusQuery
deriving DecidableEq

/-- `UsageStatsSnapshot` from `src/lib.rs`.  `tool_counts` is a
`HashMap<String, u64>` in Rust, embedded as an association list. -/
structure UsageStatsSnapshot where
  total_tool_calls : Nat
  successful_calls : Nat
  failed_calls : Nat
  tool_counts : List (String × Nat)
  first_used : Int
  last_used : Int
  total_sessions : Nat
deriving DecidableEq

/-- `GlobalAggregates` from `src/lib.rs`; `success_rate : f64` is embedded
as `Rat`. -/
structure GlobalAggregates where
  total_tool_calls : Nat
  successful_calls : Nat
  failed_calls : Nat
  success_rate : Rat
  total_sessions : Nat
  categories_active : Nat
deriving DecidableEq

/-- `ServerStats` from `src/lib.rs`: per-backend-server usage record. -/
structure ServerStats where
  category : String
  port : Nat
  available : Bool
  error : Option String
  stats : UsageStatsSnapshot
deriving DecidableEq

/-- `AggregatedUsageStats` from `src/lib.rs`. -/
structure AggregatedUsageStats where
  aggregated_at : Int
  servers_queried : Nat
  servers_failed : Nat
  servers : List ServerStats
  global : GlobalAggregates
deriving DecidableEq

/-- `ToolCallRecord` from `src/lib.rs`.  In Rust, `duration_ms` carries
`#[serde(skip_serializing_if = "Option::is_none")]`. -/
structure ToolCallRecord where
  timestamp : String
  tool_name : String
  args_json : String
  output_json : String
  duration_ms : Option Nat
deriving DecidableEq

/-- `ServerToolHistory` from `src/lib.rs`. -/
structure ServerToolHistory where
  category : String
  port : Nat
  available : Bool
  error : Option String
  calls : List ToolCallRecord
deriving DecidableEq

/-- `AggregatedToolHistory` from `src/lib.rs`. -/
structure AggregatedToolHistory where
  aggregated_at : Int
  connection_id : String
  servers_queried : Nat
  servers_failed : Nat
  servers : List ServerToolHistory
  total_calls : Nat
deriving DecidableEq

/-- `ServiceStateKind` from `src/lib.rs`. -/
inductive ServiceStateKind where
  | Running : ServiceStateKind
  | Stopped : ServiceStateKind
  | Failed : ServiceStateKind
  | Restarting : ServiceStateKind
  | Starting : ServiceStateKind
deriving DecidableEq

/-- `ServiceStatus` from `src/lib.rs`: flat record, one per supervised
service. -/
structure ServiceStatus where
  name : String
  state : ServiceStateKind
  pid : Option Nat
  uptime : Option Duration
  restart_count : Nat
  max_restarts : Option Nat
  next_restart_delay : Option Duration
  success_window_remaining : Option Duration
  failure_reason : Option String
deriving DecidableEq

/-- `StatusResponse` from `src/lib.rs`. -/
structure StatusResponse where
  daemon_running : Bool
  daemon_pid : Nat
  daemon_uptime : Duration
  services : List ServiceStatus
deriving DecidableEq

/-! ## Wire encoding model

The crate derives `serde::Serialize`/`serde::Deserialize` for every type;
the spec fixes the encoding as a self-describing structured serialization
with field names preserved.  We model the serde data model with a JSON-like
value tree: structs become objects of `(field name, value)` pairs in
declaration order, `Option` fields become `null` when `None` — except a
field annotated `skip_serializing_if = "Option::is_none"`, which is omitted
from the object entirely — and unit enum variants become strings. -/

inductive Json where
  | null : Json
  | bool (b : Bool) : Json
  | nat (n : Nat) : Json
  | int (i : Int) : Json
  | rat (q : Rat) : Json
  | str (s : String) : Json
  | arr (items : List Json) : Json
  | obj (fields : List (String × Json)) : Json

/-- Field names of an encoded object (empty for non-objects). -/
def Json.keys : Json → List String
  | .obj fs => fs.map Prod.fst
  | _ => []

/-- The value stored under a field name of an encoded object. -/
def Json.fieldVal (j : Json) (k : String) : Option Json :=
  match j with
  | .obj fs => fs.lookup k
  | _ => none

/-- Serde encoding of an `Option` field without `skip_serializing_if`:
`None` is encoded as an explicit `null`. -/
def encodeOpt (f : α → Json) : Option α → Json
  | none => Json.null
  | some a => f a

def encodeDuration (d : Duration) : Json :=
  .obj [("secs", .nat d.secs), ("nanos", .nat d.nanos)]

def encodeUsageStatsSnapshot (s : UsageStatsSnapshot) : Json :=
  .obj [("total_tool_calls", .nat s.total_tool_calls),
        ("successful_calls", .nat s.successful_calls),
        ("failed_calls", .nat s.failed_calls),
        ("tool_counts", .obj (s.tool_counts.map (fun kv => (kv.1, Json.nat kv.2)))),
        ("first_used", .int s.first_used),
        ("last_used", .int s.last_used),
        ("total_sessions", .nat s.total_sessions)]

def encodeGlobalAggregates (g : GlobalAggregates) : Json :=
  .obj [("total_tool_calls", .nat g.total_tool_calls),
        ("successful_calls", .nat g.successful_calls),
        ("failed_calls", .nat g.failed_calls),
        ("success_rate", .rat g.success_rate),
        ("total_sessions", .nat g.total_sessions),
        ("categories_active", .nat g.categories_active)]

def encodeServerStats (s : ServerStats) : Json :=
  .obj [("category", .str s.category),
        ("port", .nat s.port),
        ("available", .bool s.available),
        ("error", encodeOpt Json.str s.error),
        ("stats", encodeUsageStatsSnapshot s.stats)]

def encodeAggregatedUsageStats (a : AggregatedUsageStats) : Json :=
  .obj [("aggregated_at", .int a.aggregated_at),
        ("servers_queried", .nat a.servers_queried),
        ("servers_failed", .nat a.servers_failed),
        ("servers", .arr (a.servers.map encodeServerStats)),
        ("global", encodeGlobalAggregates a.global)]

/-- Encoding of `ToolCallRecord`: every field is always present except
`duration_ms`, whose `skip_serializing_if = "Option::is_none"` attribute
omits the key entirely when the value is `None`. -/
def encodeToolCallRecord (r : ToolCallRecord) : Json :=
  .obj ([("timestamp", .str r.timestamp),
         ("tool_name", .str r.tool_name),
         ("args_json", .str r.args_json),
         ("output_json", .str r.output_json)] ++
        (match r.duration_ms with
         | none => []
         | some d => [("duration_ms", Json.nat d)]))

def encodeServerToolHistory (s : ServerToolHistory) : Json :=
  .obj [("category", .str s.category),
        ("port", .nat s.port),
        ("available", .bool s.available),
        ("error", encodeOpt Json.str s.error),
        ("calls", .arr (s.calls.map encodeToolCallRecord))]

def encodeAggregatedToolHistory (a : AggregatedToolHistory) : Json :=
  .obj [("aggregated_at", .int a.aggregated_at),
        ("connection_id", .str a.connection_id),
        ("servers_queried", .nat a.servers_queried),
        ("servers_failed", .nat a.servers_failed),
        ("servers", .arr (a.servers.map encodeServerToolHistory)),
        ("total_calls", .nat a.total_calls)]

def encodeServiceStateKind : ServiceStateKind → Json
  | .Running => .str "Running"
  | .Stopped => .str "Stopped"
  | .Failed => .str "Failed"
  | .Restarting => .str "Restarting"
  | .Starting => .str "Starting"

def encodeServiceStatus (s : ServiceStatus) : Json :=
  .obj [("name", .str s.name),
        ("state", encodeServiceStateKind s.state),
        ("pid", encodeOpt Json.nat s.pid),
        ("uptime", encodeOpt encodeDuration s.uptime),
        ("restart_count", .nat s.restart_count),
        ("max_restarts", encodeOpt Json.nat s.max_restarts),
        ("next_restart_delay", encodeOpt encodeDuration s.next_restart_delay),
        ("success_window_remaining", encodeOpt encodeDuration s.success_window_remaining),
        ("failure_reason", encodeOpt Json.str s.failure_reason)]

def encodeStatusResponse (r : StatusResponse) : Json :=
  .obj [("daemon_running", .bool r.daemon_running),
        ("daemon_pid", .nat r.daemon_pid),
        ("daemon_uptime", encodeDuration r.daemon_uptime),
        ("services", .arr (r.services.map encodeServiceStatus))]

/-! ## Wire decoding model

Serde's derived `Deserialize` for these structs reads each expected field
by name; a field of type `Option<T>` is permitted to be missing and then
defaults to `None`, and an explicit `null` also decodes to `None`.  Any
other missing or ill-typed field makes the whole decode fail. -/

def decBool : Json → Option Bool
  | .bool b => some b
  | _ => none

def decNatJ : Json → Option Nat
  | .nat n => some n
  | _ => none

def decIntJ : Json → Option Int
  | .int i => some i
  | _ => none

def decRatJ : Json → Option Rat
  | .rat q => some q
  | _ => none

def decStr : Json → Option String
  | .str s => some s
  | _ => none

/-- Decode every element of a JSON array body with `f`, failing if any
element fails. -/
def decListWith (f : Json → Option α) : List Json → Option (List α)
  | [] => some []
  | j :: js => do
      let a ← f j
      let rest ← decListWith f js
      some (a :: rest)

def decArr (f : Json → Option α) : Json → Option (List α)
  | .arr items => decListWith f items
  | _ => none

/-- Decode a JSON object body as an association list of values. -/
def decPairsWith (f : Json → Option α) : List (String × Json) → Option (List (String × α))
  | [] => some []
  | (k, j) :: rest => do
      let a ← f j
      let r ← decPairsWith f rest
      some ((k, a) :: r)

/-- A required struct field: must be present and decodable. -/
def decField (f : Json → Option α) (fs : List (String × Json)) (k : String) : Option α :=
  (fs.lookup k).bind f

/-- Decode the looked-up value of an `Option` field: a missing key or an
explicit `null` decodes to `none`. -/
def decOptVal (f : Json → Option α) : Option Json → Option (Option α)
  | none => some none
  | some .null => some none
  | some j => (f j).map some

/-- An `Option` struct field: a missing key or an explicit `null` decodes
to `none` (serde treats `Option` fields as implicitly defaulted). -/
def decOptField (f : Json → Option α) (fs : List (String × Json)) (k : String) :
    Option (Option α) :=
  decOptVal f (fs.lookup k)

def decodeDuration : Json → Option Duration
  | .obj fs => do
      let s ← decField decNatJ fs "secs"
      let n ← decField decNatJ fs "nanos"
      some ⟨s, n⟩
  | _ => none

def decodeUsageStatsSnapshot : Json → Option UsageStatsSnapshot
  | .obj fs => do
      let t ← decField decNatJ fs "total_tool_calls"
      let sc ← decField decNatJ fs "successful_calls"
      let fc ← decField decNatJ fs "failed_calls"
      let tc ← decField (fun j => match j with
                  | .obj kvs => decPairsWith decNatJ kvs
                  | _ => none) fs "tool_counts"
      let fu ← decField decIntJ fs "first_used"
      let lu ← decField decIntJ fs "last_used"
      let ts ← decField decNatJ fs "total_sessions"
      some ⟨t, sc, fc, tc, fu, lu, ts⟩
  | _ => none

def decodeGlobalAggregates : Json → Option GlobalAggregates
  | .obj fs => do
      let t ← decField decNatJ fs "total_tool_calls"
      let sc ← decField decNatJ fs "successful_calls"
      let fc ← decField decNatJ fs "failed_calls"
      let sr ← decField decRatJ fs "success_rate"
      let ts ← decField decNatJ fs "total_sessions"
      let ca ← decField decNatJ fs "categories_active"
      some ⟨t, sc, fc, sr, ts, ca⟩
  | _ => none

def decodeServerStats : Json → Option ServerStats
  | .obj fs => do
      let c ← decField decStr fs "category"
      let p ← decField decNatJ fs "port"
      let av ← decField decBool fs "available"
      let er ← decOptField decStr fs "error"
      let st ← decField decodeUsageStatsSnapshot fs "stats"
      some ⟨c, p, av, er, st⟩
  | _ => none

def decodeAggregatedUsageStats : Json → Option AggregatedUsageStats
  | .obj fs => do
      let at_ ← decField decIntJ fs "aggregated_at"
      let q ← decField decNatJ fs "servers_queried"
      let f ← decField decNatJ fs "servers_failed"
      let sv ← decField (decArr decodeServerStats) fs "servers"
      let g ← decField decodeGlobalAggregates fs "global"
      some ⟨at_, q, f, sv, g⟩
  | _ => none

def decodeToolCallRecord : Json → Option ToolCallRecord
  | .obj fs => do
      let ts ← decField decStr fs "timestamp"
      let tn ← decField decStr fs "tool_name"
      let aj ← decField decStr fs "args_json"
      let oj ← decField decStr fs "output_json"
      let dm ← decOptField decNatJ fs "duration_ms"
      some ⟨ts, tn, aj, oj, dm⟩
  | _ => none

def decodeServerToolHistory : Json → Option ServerToolHistory
  | .obj fs => do
      let c ← decField decStr fs "category"
      let p ← decField decNatJ fs "port"
      let av ← decField decBool fs "available"
      let er ← decOptField decStr fs "error"
      let cl ← decField (decArr decodeToolCallRecord) fs "calls"
      some ⟨c, p, av, er, cl⟩
  | _ => none

def decodeAggregatedToolHistory : Json → Option AggregatedToolHistory
  | .obj fs => do
      let at_ ← decField decIntJ fs "aggregated_at"
      let ci ← decField decStr fs "connection_id"
      let q ← decField decNatJ fs "servers_queried"
      let f ← decField decNatJ fs "servers_failed"
      let sv ← decField (decArr decodeServerToolHistory) fs "servers"
      let tc ← decField decNatJ fs "total_calls"
      some ⟨at_, ci, q, f, sv, tc⟩
  | _ => none

def decodeServiceStateKind : Json → Option ServiceStateKind
  | .str "Running" => some .Running
  | .str "Stopped" => some .Stopped
  | .str "Failed" => some .Failed
  | .str "Restarting" => some .Restarting
  | .str "Starting" => some .Starting
  | _ => none

def decodeServiceStatus : Json → Option ServiceStatus
  | .obj fs => do
      let n ← decField decStr fs "name"
      let st ← decField decodeServiceStateKind fs "state"
      let pid ← decOptField decNatJ fs "pid"
      let up ← decOptField decodeDuration fs "uptime"
      let rc ← decField decNatJ fs "restart_count"
      let mr ← decOptField decNatJ fs "max_restarts"
      let nd ← decOptField decodeDuration fs "next_restart_delay"
      let sw ← decOptField decodeDuration fs "success_window_remaining"
      let fr ← decOptField decStr fs "failure_reason"
      some ⟨n, st, pid, up, rc, mr, nd, sw, fr⟩
  | _ => none

def decodeStatusResponse : Json → Option StatusResponse
  | .obj fs => do
      let dr ← decField decBool fs "daemon_running"
      let dp ← decField decNatJ fs "daemon_pid"
      let du ← decField decodeDuration fs "daemon_uptime"
      let sv ← decField (decArr decodeServiceStatus) fs "services"
      some ⟨dr, dp, du, sv⟩
  | _ => none

/-! ## Aggregation protocol (daemon side)

The crate under verification only declares the response types; the daemon
code that populates them lives outside this crate.  The definitions below
model that producer from the spec (section 4.2, "Aggregation Protocol"). -/

/-- A backend server in the candidate set, identified by category with its
port recorded for diagnostics. -/
structure ServerCandidate where
  category : String
  port : Nat
deriving DecidableEq

/-- The all-zero / empty `UsageStatsSnapshot` used as the placeholder
payload for an unavailable server. -/
def emptyUsageSnapshot : UsageStatsSnapshot :=
  { total_tool_calls := 0, successful_calls := 0, failed_calls := 0,
    tool_counts := [], first_used := 0, last_used := 0, total_sessions := 0 }

/-- Modelled from the spec: the per-server record builder of the daemon's
usage-stats aggregator (not in this crate).  A server that responded gets
`available = true`, no `error`, and its snapshot verbatim; a server that
failed gets `available = false`, a populated `error`, and the zero-valued
placeholder snapshot — never partial data. -/
def mkServerStats (c : ServerCandidate) :
    Except String UsageStatsSnapshot → ServerStats
  | .ok snap =>
      { category := c.category, port := c.port, available := true,
        error := none, stats := snap }
  | .error e =>
      { category := c.category, port := c.port, available := false,
        error := some e, stats := emptyUsageSnapshot }

/-- Modelled from the spec: the per-server record builder of the daemon's
tool-history aggregator (not in this crate); the placeholder payload for
an unavailable server is the empty call list. -/
def mkServerToolHistory (c : ServerCandidate) :
    Except String (List ToolCallRecord) → ServerToolHistory
  | .ok recs =>
      { category := c.category, port := c.port, available := true,
        error := none, calls := recs }
  | .error e =>
      { category := c.category, port := c.port, available := false,
        error := some e, calls := [] }

/-- Modelled from the spec: `GlobalAggregates` computation (not in this
crate).  Counter sums range over `available == true` entries only;
`success_rate = successful_calls / total_tool_calls` when
`total_tool_calls > 0`, else `0`; `categories_active` counts distinct
categories among available servers. -/
def computeGlobalAggregates (servers : List ServerStats) : GlobalAggregates :=
  let avail := servers.filter (fun s => s.available)
  let total := (avail.map (fun s => s.stats.total_tool_calls)).sum
  let succ := (avail.map (fun s => s.stats.successful_calls)).sum
  let failed := (avail.map (fun s => s.stats.failed_calls)).sum
  { total_tool_calls := total,
    successful_calls := succ,
    failed_calls := failed,
    success_rate := if 0 < total then (succ : Rat) / (total : Rat) else 0,
    total_sessions := (avail.map (fun s => s.stats.total_sessions)).sum,
    categories_active := ((avail.map (fun s => s.category)).dedup).length }

/-- Modelled from the spec: assembly of an `AggregatedUsageStats` response
from the per-candidate query results (a fan-out the daemon performs outside
this crate).  `servers_queried` is the candidate-set size fixed at
dispatch; `servers_failed` counts unavailable entries. -/
def aggregateUsageStats (now : Int)
    (results : List (ServerCandidate × Except String UsageStatsSnapshot)) :
    AggregatedUsageStats :=
  let servers := results.map (fun r => mkServerStats r.1 r.2)
  { aggregated_at := now,
    servers_queried := servers.length,
    servers_failed := (servers.filter (fun s => !s.available)).length,
    servers := servers,
    global := computeGlobalAggregates servers }

/-- Modelled from the spec: assembly of an `AggregatedToolHistory` response
from the per-candidate query results (not in this crate).  `total_calls`
sums the call counts of the per-server records; unavailable entries carry
the empty placeholder list and so contribute zero. -/
def aggregateToolHistory (now : Int) (conn : String)
    (results : List (ServerCandidate × Except String (List ToolCallRecord))) :
    AggregatedToolHistory :=
  let servers := results.map (fun r => mkServerToolHistory r.1 r.2)
  { aggregated_at := now,
    connection_id := conn,
    servers_queried := servers.length,
    servers_failed := (servers.filter (fun s => !s.available)).length,
    servers := servers,
    total_calls := (servers.map (fun s => s.calls.length)).sum }

/-- Per-result counter sanity used as a hypothesis for the global
success-rate bound: an `ok` snapshot reports
`successful_calls + failed_calls ≤ total_tool_calls`. -/
def resultCountersOk : Except String UsageStatsSnapshot → Bool
  | .ok s => decide (s.successful_calls + s.failed_calls ≤ s.total_tool_calls)
  | .error _ => true

/-! ## Query/response envelope -/

/-- The three response shapes of the protocol. -/
inductive ResponseShape where
  | statusResponse : ResponseShape
  | aggregatedUsageStats : ResponseShape
  | aggregatedToolHistory : ResponseShape
deriving DecidableEq

/-- Modelled from the spec: the daemon's dispatch of each request shape to
its response shape (the handler lives outside this crate). -/
def responseShapeOf : StatusQuery → ResponseShape
  | .All => .statusResponse
  | .Service _ => .statusResponse
  | .UsageStats _ => .aggregatedUsageStats
  | .ToolHistory _ => .aggregatedToolHistory

/-! ## Backend usage tracker

A `UsageStatsSnapshot` is produced by each backend server's usage tracker
(`kodegen-tools-introspection`, outside this crate).  The operations below
model that tracker from the spec: `total_tool_calls` is bumped when a call
starts, and `successful_calls`/`failed_calls` when an in-flight call
completes, so in-flight calls are counted in neither bucket. -/

/-- Increment a tool's invocation count in the association list. -/
def bumpToolCount : List (String × Nat) → String → List (String × Nat)
  | [], tool => [(tool, 1)]
  | (k, v) :: rest, tool =>
      if k = tool then (k, v + 1) :: rest else (k, v) :: bumpToolCount rest tool

/-- Modelled from the spec: a tool call starts at epoch second `t`
(optionally tagged with a tool name; untagged calls leave `tool_counts`
alone).  `first_used` is set on the first call ever; `last_used` always
advances to `t`. -/
def recordCallStart (s : UsageStatsSnapshot) (tool : Option String) (t : Int) :
    UsageStatsSnapshot :=
  { s with
    total_tool_calls := s.total_tool_calls + 1,
    tool_counts := match tool with
      | none => s.tool_counts
      | some name => bumpToolCount s.tool_counts name,
    first_used := if s.total_tool_calls = 0 then t else s.first_used,
    last_used := t }

/-- Modelled from the spec: an in-flight call completes successfully. -/
def recordCallSuccess (s : UsageStatsSnapshot) : UsageStatsSnapshot :=
  { s with successful_calls := s.successful_calls + 1 }

/-- Modelled from the spec: an in-flight call completes with a failure. -/
def recordCallFailure (s : UsageStatsSnapshot) : UsageStatsSnapshot :=
  { s with failed_calls := s.failed_calls + 1 }

/-- Modelled from the spec: a new logical session is observed. -/
def recordSession (s : UsageStatsSnapshot) : UsageStatsSnapshot :=
  { s with total_sessions := s.total_sessions + 1 }

/-- The snapshots a backend server's tracker can actually produce: start
events carry a non-decreasing clock, and a completion event only fires for
a call that is actually in flight. -/
inductive ReachableSnapshot : UsageStatsSnapshot → Prop where
  | init : ReachableSnapshot emptyUsageSnapshot
  | callStart (s : UsageStatsSnapshot) (tool : Option String) (t : Int) :
      ReachableSnapshot s → s.last_used ≤ t →
      ReachableSnapshot (recordCallStart s tool t)
  | callSuccess (s : UsageStatsSnapshot) : ReachableSnapshot s →
      s.successful_calls + s.failed_calls < s.total_tool_calls →
      ReachableSnapshot (recordCallSuccess s)
  | callFailure (s : UsageStatsSnapshot) : ReachableSnapshot s →
      s.successful_calls + s.failed_calls < s.total_tool_calls →
      ReachableSnapshot (recordCallFailure s)
  | session (s : UsageStatsSnapshot) : ReachableSnapshot s →
      ReachableSnapshot (recordSession s)

/-! ## Service supervisor state machine

`ServiceStatus`/`ServiceStateKind` are the wire view of the daemon's
supervisor, whose code lives outside this crate.  The state machine below
models it from the spec (section 4.1). -/

/-- Modelled from the spec: the supervisor's internal phase of one
service, a tagged variant carrying only the fields valid in that state.
`pid` is optional in `starting`/`restarting` (the OS process may not
exist yet), mandatory in `running`. -/
inductive ServicePhase where
  | starting (pid : Option Nat) : ServicePhase
  | running (pid : Nat) (uptime : Duration)
      (success_window_remaining : Option Duration) : ServicePhase
  | stopped : ServicePhase
  | restarting (next_restart_delay : Duration) (pid : Option Nat) : ServicePhase
  | failed (reason : String) : ServicePhase
deriving DecidableEq

/-- Modelled from the spec: the supervisor's bookkeeping for one
supervised service. -/
structure SupervisedService where
  name : String
  max_restarts : Option Nat
  restart_count : Nat
  success_window : Option Duration
  last_failure : Option String
  phase : ServicePhase
deriving DecidableEq

/-- Modelled from the spec: a freshly registered service starts in
`Starting` with a zero restart count and no recorded failure. -/
def initService (name : String) (max_restarts : Option Nat)
    (window : Option Duration) : SupervisedService :=
  { name := name, max_restarts := max_restarts, restart_count := 0,
    success_window := window, last_failure := none, phase := .starting none }

/-- Events delivered to the supervisor by its external collaborators
(process readiness, process exit, backoff timer, success-window timer). -/
inductive ServiceEvent where
  | ready (pid : Nat) : ServiceEvent
  | exitedOk : ServiceEvent
  | exitedAbnormally (reason : String) : ServiceEvent
  | backoffElapsed : ServiceEvent
  | successWindowElapsed : ServiceEvent
deriving DecidableEq

/-- The restart budget is exhausted when `max_restarts` is set and
`restart_count` has reached it (absence of `max_restarts` means
unlimited restarts). -/
def restartBudgetExhausted (s : SupervisedService) : Bool :=
  match s.max_restarts with
  | none => false
  | some m => decide (m ≤ s.restart_count)

/-- Modelled from the spec: the supervisor's transition function
(section 4.1).  `backoff` is the backoff policy, mapping the new restart
count to the scheduled delay.  `Stopped` and `Failed` are terminal for
automatic transitions; a success-window completion resets the restart
budget to zero (the spec leaves reset-to-zero vs decrement open; this
model picks reset-to-zero).  Events that do not apply to the current
phase leave the state unchanged. -/
def stepService (backoff : Nat → Duration) (s : SupervisedService)
    (e : ServiceEvent) : SupervisedService :=
  match s.phase, e with
  | .starting _, .ready pid =>
      { s with phase := .running pid ⟨0, 0⟩ s.success_window,
               last_failure := none }
  | .running _ _ _, .exitedOk => { s with phase := .stopped }
  | .running _ _ _, .exitedAbnormally reason =>
      if restartBudgetExhausted s then
        { s with phase := .failed reason, last_failure := some reason }
      else
        { s with phase := .restarting (backoff (s.restart_count + 1)) none,
                 restart_count := s.restart_count + 1,
                 last_failure := some reason }
  | .running pid u _, .successWindowElapsed =>
      { s with restart_count := 0, phase := .running pid u s.success_window }
  | .restarting _ _, .backoffElapsed => { s with phase := .starting none }
  | _, _ => s

/-- States of one supervised service reachable from `init` under the
transition function. -/
inductive ReachableService (backoff : Nat → Duration)
    (init : SupervisedService) : SupervisedService → Prop where
  | refl : ReachableService backoff init init
  | step (s : SupervisedService) (e : ServiceEvent) :
      ReachableService backoff init s →
      ReachableService backoff init (stepService backoff s e)

/-- The wire view the daemon reports for a status query: exactly the
fields valid for the current phase are populated. -/
def renderStatus (s : SupervisedService) : ServiceStatus :=
  { name := s.name,
    state := match s.phase with
      | .starting _ => .Starting
      | .running _ _ _ => .Running
      | .stopped => .Stopped
      | .restarting _ _ => .Restarting
      | .failed _ => .Failed,
    pid := match s.phase with
      | .running p _ _ => some p
      | .starting p => p
      | .restarting _ p => p
      | _ => none,
    uptime := match s.phase with
      | .running _ u _ => some u
      | _ => none,
    restart_count := s.restart_count,
    max_restarts := s.max_restarts,
    next_restart_delay := match s.phase with
      | .restarting d _ => some d
      | _ => none,
    success_window_remaining := match s.phase with
      | .running _ _ w => w
      | _ => none,
    failure_reason := s.last_failure }

/-! ## Concrete values used to exercise the theorems -/

def demoCandidate : ServerCandidate := ⟨"filesystem", 3001⟩

def demoSnapshot : UsageStatsSnapshot :=
  { total_tool_calls := 10, successful_calls := 7, failed_calls := 2,
    tool_counts := [("read_file", 5)], first_used := 100, last_used := 200,
    total_sessions := 3 }

def demoOkResult : Except String UsageStatsSnapshot := .ok demoSnapshot

def demoErrResult : Except String UsageStatsSnapshot := .error "connection timed out"

def demoRecord : ToolCallRecord :=
  { timestamp := "2025-01-01T00:00:00Z", tool_name := "read_file",
    args_json := "null", output_json := "null", duration_ms := none }

def demoHistOk : Except String (List ToolCallRecord) := .ok [demoRecord]

def demoHistErr : Except String (List ToolCallRecord) := .error "connection timed out"

def demoRunningService : SupervisedService :=
  { name := "svc", max_restarts := none, restart_count := 0,
    success_window := none, last_failure := none,
    phase := .running 42 ⟨5, 0⟩ none }

def demoStoppedService : SupervisedService :=
  { name := "svc", max_restarts := none, restart_count := 0,
    success_window := none, last_failure := none, phase := .stopped }

/-- A linear backoff policy used only to instantiate the state machine. -/
def demoBackoff : Nat → Duration := fun n => ⟨n, 0⟩

def workerInit : SupervisedService := initService "worker-a" (some 3) none

/-- The "worker-a" scenario: the service comes up, crashes, and is
restarted until its budget of 3 restarts is spent, coming up one last
time with `restart_count = 3`. -/
def workerEvents : List ServiceEvent :=
  [.ready 100, .exitedAbnormally "crash 1", .backoffElapsed,
   .ready 101, .exitedAbnormally "crash 2", .backoffElapsed,
   .ready 102, .exitedAbnormally "crash 3", .backoffElapsed,
   .ready 103]

def workerFinal : SupervisedService :=
  workerEvents.foldl (stepService demoBackoff) workerInit

def demoServiceStatus : ServiceStatus :=
  { name := "svc", state := .Running, pid := some 42, uptime := some ⟨5, 0⟩,
    restart_count := 0, max_restarts := none, next_restart_delay := none,
    success_window_remaining := none, failure_reason := none }

def demoStatusResponse : StatusResponse :=
  { daemon_running := true, daemon_pid := 1234, daemon_uptime := ⟨60, 0⟩,
    services := [demoServiceStatus] }

def demoUsageResults : List (ServerCandidate × Except String UsageStatsSnapshot) :=
  [(demoCandidate, demoOkResult), (⟨"git", 3002⟩, demoErrResult)]

def demoIdleStatus : ServiceStatus :=
  { name := "svc", state := .Stopped, pid := none, uptime := none,
    restart_count := 0, max_restarts := none, next_restart_delay := none,
    success_window_remaining := none, failure_reason := none }

def demoGlobal : GlobalAggregates :=
  computeGlobalAggregates [mkServerStats demoCandidate demoOkResult]

def demoAggregatedUsage : AggregatedUsageStats :=
  aggregateUsageStats 1000 demoUsageResults

def demoAggregatedHistory : AggregatedToolHistory :=
  aggregateToolHistory 1000 "conn-123" [(demoCandidate, demoHistOk)]

/-! ## Round-trip lemmas for the wire encoding -/

lemma decListWith_map (f : Json → Option α) (g : α → Json)
    (h : ∀ a, f (g a) = some a) (xs : List α) :
    decListWith f (xs.map g) = some xs := by
  induction xs with
  | nil => rfl
  | cons x xs ih => simp [decListWith, h, ih]

lemma decPairsWith_map (f : Json → Option α) (g : α → Json)
    (h : ∀ a, f (g a) = some a) (kvs : List (String × α)) :
    decPairsWith f (kvs.map (fun kv => (kv.1, g kv.2))) = some kvs := by
  induction kvs with
  | nil => rfl
  | cons kv rest ih => simp [decPairsWith, h, ih]

lemma decOptVal_encodeOpt (f : Json → Option α) (g : α → Json)
    (h : ∀ a, f (g a) = some a) (hnn : ∀ a, g a ≠ Json.null) (o : Option α) :
    decOptVal f (some (encodeOpt g o)) = some o := by
  cases o with
  | none => rfl
  | some a =>
    have hfa := h a
    cases hga : g a with
    | null => exact absurd hga (hnn a)
    | bool b => rw [hga] at hfa; simp [encodeOpt, decOptVal, hga, hfa]
    | nat n => rw [hga] at hfa; simp [encodeOpt, decOptVal, hga, hfa]
    | int i => rw [hga] at hfa; simp [encodeOpt, decOptVal, hga, hfa]
    | rat q => rw [hga] at hfa; simp [encodeOpt, decOptVal, hga, hfa]
    | str s => rw [hga] at hfa; simp [encodeOpt, decOptVal, hga, hfa]
    | arr items => rw [hga] at hfa; simp [encodeOpt, decOptVal, hga, hfa]
    | obj fields => rw [hga] at hfa; simp [encodeOpt, decOptVal, hga, hfa]

@[simp] lemma decOptVal_str (o : Option String) :
    decOptVal decStr (some (encodeOpt Json.str o)) = some o :=
  decOptVal_encodeOpt decStr Json.str (fun _ => rfl) (fun _ h => Json.noConfusion h) o

@[simp] lemma decOptVal_nat (o : Option Nat) :
    decOptVal decNatJ (some (encodeOpt Json.nat o)) = some o :=
  decOptVal_encodeOpt decNatJ Json.nat (fun _ => rfl) (fun _ h => Json.noConfusion h) o

@[simp] lemma encdec_Duration (d : Duration) :
    decodeDuration (encodeDuration d) = some d := by
  simp [encodeDuration, decodeDuration, decField, decNatJ, List.lookup]

@[simp] lemma decOptVal_duration (o : Option Duration) :
    decOptVal decodeDuration (some (encodeOpt encodeDuration o)) = some o :=
  decOptVal_encodeOpt decodeDuration encodeDuration encdec_Duration
    (fun _ h => by simp [encodeDuration] at h) o

@[simp] lemma encdec_UsageStatsSnapshot (s : UsageStatsSnapshot) :
    decodeUsageStatsSnapshot (encodeUsageStatsSnapshot s) = some s := by
  simp [encodeUsageStatsSnapshot, decodeUsageStatsSnapshot, decField,
    decNatJ, decIntJ, List.lookup, decPairsWith_map decNatJ Json.nat (fun _ => rfl)]

@[simp] lemma encdec_GlobalAggregates (g : GlobalAggregates) :
    decodeGlobalAggregates (encodeGlobalAggregates g) = some g := by
  simp [encodeGlobalAggregates, decodeGlobalAggregates, decField,
    decNatJ, decRatJ, List.lookup]

@[simp] lemma encdec_ServerStats (s : ServerStats) :
    decodeServerStats (encodeServerStats s) = some s := by
  simp [encodeServerStats, decodeServerStats, decField, decOptField,
    decNatJ, decStr, decBool, List.lookup]

@[simp] lemma encdec_AggregatedUsageStats (a : AggregatedUsageStats) :
    decodeAggregatedUsageStats (encodeAggregatedUsageStats a) = some a := by
  simp [encodeAggregatedUsageStats, decodeAggregatedUsageStats, decField,
    decNatJ, decIntJ, decArr, List.lookup,
    decListWith_map decodeServerStats encodeServerStats encdec_ServerStats]

@[simp] lemma encdec_ToolCallRecord (r : ToolCallRecord) :
    decodeToolCallRecord (encodeToolCallRecord r) = some r := by
  cases hd : r.duration_ms with
  | none =>
    cases r
    simp_all [encodeToolCallRecord, decodeToolCallRecord, decField, decOptField,
      decOptVal, decStr, List.lookup]
  | some d =>
    cases r
    simp_all [encodeToolCallRecord, decodeToolCallRecord, decField, decOptField,
      decOptVal, decStr, decNatJ, List.lookup]

@[simp] lemma encdec_ServerToolHistory (s : ServerToolHistory) :
    decodeServerToolHistory (encodeServerToolHistory s) = some s := by
  simp [encodeServerToolHistory, decodeServerToolHistory, decField, decOptField,
    decNatJ, decStr, decBool, decArr, List.lookup,
    decListWith_map decodeToolCallRecord encodeToolCallRecord encdec_ToolCallRecord]

@[simp] lemma encdec_AggregatedToolHistory (a : AggregatedToolHistory) :
    decodeAggregatedToolHistory (encodeAggregatedToolHistory a) = some a := by
  simp [encodeAggregatedToolHistory, decodeAggregatedToolHistory, decField,
    decNatJ, decIntJ, decStr, decArr, List.lookup,
    decListWith_map decodeServerToolHistory encodeServerToolHistory encdec_ServerToolHistory]

@[simp] lemma encdec_ServiceStateKind (k : ServiceStateKind) :
    decodeServiceStateKind (encodeServiceStateKind k) = some k := by
  cases k <;> rfl

@[simp] lemma encdec_ServiceStatus (s : ServiceStatus) :
    decodeServiceStatus (encodeServiceStatus s) = some s := by
  simp [encodeServiceStatus, decodeServiceStatus, decField, decOptField,
    decNatJ, decStr, List.lookup]

@[simp] lemma encdec_StatusResponse (r : StatusResponse) :
    decodeStatusResponse (encodeStatusResponse r) = some r := by
  simp [encodeStatusResponse, decodeStatusResponse, decField, decOptField,
    decNatJ, decBool, decArr, List.lookup,
    decListWith_map decodeServiceStatus encodeServiceStatus encdec_ServiceStatus]

/-! ## Invariants of the modelled backend usage tracker -/

/-- Any reachable tracker snapshot keeps `first_used ≤ last_used` (the
empty snapshot uses `0` for both). -/
lemma reachableSnapshot_first_le_last (s : UsageStatsSnapshot)
    (h : ReachableSnapshot s) : s.first_used ≤ s.last_used := by
  induction h with
  | init => simp [emptyUsageSnapshot]
  | callStart s tool t hs hle ih =>
      by_cases h0 : s.total_tool_calls = 0
      · simp [recordCallStart, h0]
      · simp [recordCallStart, h0]
        omega
  | callSuccess s hs hlt ih => simpa [recordCallSuccess] using ih
  | callFailure s hs hlt ih => simpa [recordCallFailure] using ih
  | session s hs ih => simpa [recordSession] using ih

/-! ## Invariants of the modelled supervisor state machine -/

/-- One transition never changes the configured `max_restarts`, and only
grows `restart_count` past `m` if it already exceeded `m`. -/
lemma stepService_budget (backoff : Nat → Duration) (t : SupervisedService)
    (e : ServiceEvent) (m : Nat) (hm : t.max_restarts = some m)
    (hc : t.restart_count ≤ m) :
    (stepService backoff t e).max_restarts = some m ∧
    (stepService backoff t e).restart_count ≤ m := by
  rcases t with ⟨tn, tm, tc, tw, tl, tph⟩
  simp only at hm hc
  cases tph <;> cases e <;>
    simp only [stepService] <;>
    try exact ⟨hm, hc⟩
  case mk.running.successWindowElapsed pid u w =>
    exact ⟨hm, Nat.zero_le m⟩
  case mk.running.exitedAbnormally pid u w reason =>
    by_cases hex : m ≤ tc
    · simp [restartBudgetExhausted, hm, hex, hc]
    · simp [restartBudgetExhausted, hm, hex]
      omega

/-- Reachability preserves the restart-budget invariant: starting from a
service configured with `max_restarts = some m` and a restart count within
budget, every reachable state still has `max_restarts = some m` and
`restart_count ≤ m`. -/
lemma reachableService_budget (backoff : Nat → Duration)
    (init s : SupervisedService) (m : Nat)
    (h : ReachableService backoff init s)
    (hm : init.max_restarts = some m) (hc : init.restart_count ≤ m) :
    s.max_restarts = some m ∧ s.restart_count ≤ m := by
  induction h with
  | refl => exact ⟨hm, hc⟩
  | step t e ht ih => exact stepService_budget backoff t e m ih.1 ih.2

/-- Folding a list of events over the transition function stays within the
reachable set. -/
lemma reachableService_foldl_from (backoff : Nat → Duration)
    (init : SupervisedService) (es : List ServiceEvent)
    (s : SupervisedService) (h : ReachableService backoff init s) :
    ReachableService backoff init (es.foldl (stepService backoff) s) := by
  induction es generalizing s with
  | nil => exact h
  | cons e es ih => exact ih (stepService backoff s e) (ReachableService.step s e h)

lemma reachableService_foldl (backoff : Nat → Duration)
    (init : SupervisedService) (es : List ServiceEvent) :
    ReachableService backoff init (es.foldl (stepService backoff) init) :=
  reachableService_foldl_from backoff init es init ReachableService.refl

/-! ## Bounds for the modelled global aggregation -/

/-- Every per-server record the usage aggregator builds reports
`successful_calls ≤ total_tool_calls`, provided an `ok` result's snapshot
has sane counters (the unavailable placeholder is all zero). -/
lemma mkServerStats_succ_le (c : ServerCandidate)
    (r : Except String UsageStatsSnapshot) (h : resultCountersOk r = true) :
    (mkServerStats c r).stats.successful_calls ≤
      (mkServerStats c r).stats.total_tool_calls := by
  cases r with
  | ok snap =>
      simp [resultCountersOk] at h
      simp [mkServerStats]
      omega
  | error e => simp [mkServerStats, emptyUsageSnapshot]

/-- Counting the entries whose flag is `false` is the same as measuring
the sublist where the flag is off. -/
lemma length_filter_not_eq_countP (L : List α) (p : α → Bool) :
    (L.filter (fun x => !p x)).length = L.countP (fun x => p x == false) := by
  rw [List.countP_eq_length_filter]
  congr 1
  apply List.filter_congr
  intro x _
  cases hx : p x <;> simp [hx]

/-! ## Claims -/

/-- C1: every aggregated response the daemon's aggregator assembles (for
usage stats and for tool history alike) has `servers_queried` equal to the
length of its `servers` list and `servers_failed` equal to the number of
entries whose `available` field is `false`. -/
theorem aggregated_counts_consistent (now : Int)
    (usageResults : List (ServerCandidate × Except String UsageStatsSnapshot))
    (conn : String)
    (histResults : List (ServerCandidate × Except String (List ToolCallRecord))) :
    (aggregateUsageStats now usageResults).servers_queried =
      (aggregateUsageStats now usageResults).servers.length ∧
    (aggregateUsageStats now usageResults).servers_failed =
      (aggregateUsageStats now usageResults).servers.countP
        (fun s => s.available == false) ∧
    (aggregateToolHistory now conn histResults).servers_queried =
      (aggregateToolHistory now conn histResults).servers.length ∧
    (aggregateToolHistory now conn histResults).servers_failed =
      (aggregateToolHistory now conn histResults).servers.countP
        (fun s => s.available == false) := by
  refine ⟨rfl, ?_, rfl, ?_⟩
  · exact length_filter_not_eq_countP
      ((usageResults.map (fun r => mkServerStats r.1 r.2))) (fun s => s.available)
  · exact length_filter_not_eq_countP
      ((histResults.map (fun r => mkServerToolHistory r.1 r.2))) (fun s => s.available)

/-- C3: in every per-server record the aggregator builds, `error` is
populated exactly when `available` is `false`; an unavailable server's
payload is the zero-valued/empty placeholder (`emptyUsageSnapshot`, or an
empty `calls` list), and an available server's payload is exactly the
snapshot/records its query returned. -/
theorem per_server_error_payload_discipline (c ch : ServerCandidate)
    (r : Except String UsageStatsSnapshot)
    (rh : Except String (List ToolCallRecord)) :
    ((mkServerStats c r).error ≠ none ↔ (mkServerStats c r).available = false) ∧
    ((mkServerStats c r).available = false →
      (mkServerStats c r).stats = emptyUsageSnapshot) ∧
    ((mkServerStats c r).available = true →
      r = Except.ok (mkServerStats c r).stats) ∧
    ((mkServerToolHistory ch rh).error ≠ none ↔
      (mkServerToolHistory ch rh).available = false) ∧
    ((mkServerToolHistory ch rh).available = false →
      (mkServerToolHistory ch rh).calls = []) ∧
    ((mkServerToolHistory ch rh).available = true →
      rh = Except.ok (mkServerToolHistory ch rh).calls) := by
  cases r <;> cases rh <;> simp [mkServerStats, mkServerToolHistory]

/-- Witness for C3: an available record carries its snapshot with no
error, a failed record carries the placeholder with an error. -/
theorem per_server_error_payload_discipline_witness :
    ((mkServerStats demoCandidate demoOkResult).available = true →
      demoOkResult = Except.ok (mkServerStats demoCandidate demoOkResult).stats) ∧
    ((mkServerStats demoCandidate demoErrResult).available = false →
      (mkServerStats demoCandidate demoErrResult).stats = emptyUsageSnapshot) := by
  have h1 := per_server_error_payload_discipline demoCandidate demoCandidate
    demoOkResult demoHistOk
  have h2 := per_server_error_payload_discipline demoCandidate demoCandidate
    demoErrResult demoHistErr
  exact ⟨h1.2.2.1, h2.2.1⟩

/-- C4: the rendered `ServiceStatus` of any supervisor state has `pid`
present and `next_restart_delay` absent whenever `state` is `Running`,
and `pid` absent whenever `state` is `Stopped` or `Failed`. -/
theorem state_field_presence (svc : SupervisedService) :
    ((renderStatus svc).state = ServiceStateKind.Running →
      (renderStatus svc).pid ≠ none ∧ (renderStatus svc).next_restart_delay = none) ∧
    ((renderStatus svc).state = ServiceStateKind.Stopped ∨
        (renderStatus svc).state = ServiceStateKind.Failed →
      (renderStatus svc).pid = none) := by
  rcases svc with ⟨n, mr, rc, sw, lf, ph⟩
  cases ph <;> simp [renderStatus]

/-- Witness for C4: a concrete running service and a concrete stopped
service satisfy the field-presence rules. -/
theorem state_field_presence_witness :
    (renderStatus demoRunningService).pid ≠ none ∧
    (renderStatus demoRunningService).next_restart_delay = none ∧
    (renderStatus demoStoppedService).pid = none := by
  have h1 := state_field_presence demoRunningService
  have h2 := state_field_presence demoStoppedService
  exact ⟨(h1.1 (by decide)).1, (h1.1 (by decide)).2, h2.2 (Or.inl (by decide))⟩

/-- C7: every snapshot a backend usage tracker can produce satisfies
`successful_calls + failed_calls ≤ total_tool_calls` (in-flight calls are
counted in `total_tool_calls` but in neither completion bucket). -/
theorem snapshot_counter_invariant (s : UsageStatsSnapshot)
    (h : ReachableSnapshot s) :
    s.successful_calls + s.failed_calls ≤ s.total_tool_calls := by
  induction h with
  | init => simp [emptyUsageSnapshot]
  | callStart s tool t hs hle ih =>
      simp [recordCallStart]
      omega
  | callSuccess s hs hlt ih =>
      simp [recordCallSuccess]
      omega
  | callFailure s hs hlt ih =>
      simp [recordCallFailure]
      omega
  | session s hs ih => simpa [recordSession] using ih

/-- Witness for C7: a tracker that started two calls and completed one
successfully reports `1 + 0 ≤ 2`. -/
theorem snapshot_counter_invariant_witness :
    (recordCallSuccess (recordCallStart (recordCallStart emptyUsageSnapshot
        (some "read_file") 100) none 150)).successful_calls +
      (recordCallSuccess (recordCallStart (recordCallStart emptyUsageSnapshot
        (some "read_file") 100) none 150)).failed_calls ≤
      (recordCallSuccess (recordCallStart (recordCallStart emptyUsageSnapshot
        (some "read_file") 100) none 150)).total_tool_calls :=
  snapshot_counter_invariant _
    (ReachableSnapshot.callSuccess _
      (ReachableSnapshot.callStart _ none 150
        (ReachableSnapshot.callStart _ (some "read_file") 100
          ReachableSnapshot.init (by decide))
        (by decide))
      (by decide))

/-- C8: every reachable snapshot with at least one recorded call has
`first_used ≤ last_used`. -/
theorem snapshot_first_le_last (s : UsageStatsSnapshot)
    (h : ReachableSnapshot s) (_hpos : 0 < s.total_tool_calls) :
    s.first_used ≤ s.last_used :=
  reachableSnapshot_first_le_last s h

/-- Witness for C8: after calls at epoch seconds 100 and 150 the snapshot
has a positive call count and `first_used ≤ last_used`. -/
theorem snapshot_first_le_last_witness :
    0 < (recordCallStart (recordCallStart emptyUsageSnapshot
        (some "read_file") 100) none 150).total_tool_calls ∧
    (recordCallStart (recordCallStart emptyUsageSnapshot
        (some "read_file") 100) none 150).first_used ≤
      (recordCallStart (recordCallStart emptyUsageSnapshot
        (some "read_file") 100) none 150).last_used :=
  ⟨by decide, snapshot_first_le_last _
    (ReachableSnapshot.callStart _ none 150
      (ReachableSnapshot.callStart _ (some "read_file") 100
        ReachableSnapshot.init (by decide))
      (by decide))
    (by decide)⟩

/-- C9: `StatusQuery` is a closed set of exactly the four request shapes,
and the dispatch maps `All` and `Service` to `StatusResponse`,
`UsageStats` to `AggregatedUsageStats`, and `ToolHistory` to
`AggregatedToolHistory`. -/
theorem query_response_envelope :
    (∀ q : StatusQuery, q = StatusQuery.All ∨
      (∃ n, q = StatusQuery.Service n) ∨
      (∃ i, q = StatusQuery.UsageStats i) ∨
      (∃ i, q = StatusQuery.ToolHistory i)) ∧
    responseShapeOf StatusQuery.All = ResponseShape.statusResponse ∧
    (∀ n, responseShapeOf (StatusQuery.Service n) = ResponseShape.statusResponse) ∧
    (∀ i, responseShapeOf (StatusQuery.UsageStats i) =
      ResponseShape.aggregatedUsageStats) ∧
    (∀ i, responseShapeOf (StatusQuery.ToolHistory i) =
      ResponseShape.aggregatedToolHistory) := by
  refine ⟨?_, rfl, fun _ => rfl, fun _ => rfl, fun _ => rfl⟩
  intro q
  cases q with
  | All => exact Or.inl rfl
  | Service n => exact Or.inr (Or.inl ⟨n, rfl⟩)
  | UsageStats i => exact Or.inr (Or.inr (Or.inl ⟨i, rfl⟩))
  | ToolHistory i => exact Or.inr (Or.inr (Or.inr ⟨i, rfl⟩))

/-- The success rate of the computed global aggregates is the guarded
quotient of its own counter fields. -/
lemma computeGlobal_success_rate_eq (L : List ServerStats) :
    (computeGlobalAggregates L).success_rate =
      (if 0 < (computeGlobalAggregates L).total_tool_calls
       then ((computeGlobalAggregates L).successful_calls : Rat) /
            ((computeGlobalAggregates L).total_tool_calls : Rat)
       else 0) := rfl

/-- C2: the global aggregates of any assembled usage-stats response have
`success_rate = successful_calls / total_tool_calls` when
`total_tool_calls > 0` and `success_rate = 0` otherwise, and the rate
always lies in `[0, 1]` (it is a total rational value, never NaN),
provided every available server's snapshot has sane counters. -/
theorem global_success_rate_bounds (now : Int)
    (results : List (ServerCandidate × Except String UsageStatsSnapshot))
    (h : ∀ r ∈ results, resultCountersOk r.2 = true) :
    (0 < (aggregateUsageStats now results).global.total_tool_calls →
      (aggregateUsageStats now results).global.success_rate =
        ((aggregateUsageStats now results).global.successful_calls : Rat) /
          ((aggregateUsageStats now results).global.total_tool_calls : Rat)) ∧
    ((aggregateUsageStats now results).global.total_tool_calls = 0 →
      (aggregateUsageStats now results).global.success_rate = 0) ∧
    0 ≤ (aggregateUsageStats now results).global.success_rate ∧
    (aggregateUsageStats now results).global.success_rate ≤ 1 := by
  have hg : (aggregateUsageStats now results).global =
      computeGlobalAggregates (results.map (fun r => mkServerStats r.1 r.2)) := rfl
  set L := results.map (fun r => mkServerStats r.1 r.2) with hLdef
  have hsle : (computeGlobalAggregates L).successful_calls ≤
      (computeGlobalAggregates L).total_tool_calls := by
    simp only [computeGlobalAggregates]
    apply List.sum_le_sum
    intro x hx
    have hxL : x ∈ L := List.mem_of_mem_filter hx
    rw [hLdef] at hxL
    obtain ⟨r, hr, hmk⟩ := List.mem_map.mp hxL
    rw [← hmk]
    exact mkServerStats_succ_le r.1 r.2 (h r hr)
  refine ⟨?_, ?_, ?_, ?_⟩
  · intro hpos
    rw [hg] at hpos ⊢
    rw [computeGlobal_success_rate_eq L, if_pos hpos]
  · intro hzero
    rw [hg] at hzero ⊢
    rw [computeGlobal_success_rate_eq L, if_neg (by omega)]
  · rw [hg, computeGlobal_success_rate_eq L]
    by_cases hpos : 0 < (computeGlobalAggregates L).total_tool_calls
    · rw [if_pos hpos]
      exact div_nonneg (Nat.cast_nonneg _) (Nat.cast_nonneg _)
    · rw [if_neg hpos]
  · rw [hg, computeGlobal_success_rate_eq L]
    by_cases hpos : 0 < (computeGlobalAggregates L).total_tool_calls
    · rw [if_pos hpos]
      have ht : (0 : Rat) < ((computeGlobalAggregates L).total_tool_calls : Rat) := by
        exact_mod_cast hpos
      exact (div_le_one ht).mpr (by exact_mod_cast hsle)
    · rw [if_neg hpos]
      exact zero_le_one

/-- Witness for C2: aggregating one healthy server (7 of 10 calls
successful) and one timed-out server yields a success rate within
bounds. -/
theorem global_success_rate_bounds_witness :
    (∀ r ∈ demoUsageResults, resultCountersOk r.2 = true) ∧
    0 ≤ (aggregateUsageStats 1000 demoUsageResults).global.success_rate ∧
    (aggregateUsageStats 1000 demoUsageResults).global.success_rate ≤ 1 := by
  have h := global_success_rate_bounds 1000 demoUsageResults (by decide)
  exact ⟨by decide, h.2.2.1, h.2.2.2⟩

/-- C5: once a service configured with `max_restarts = m` is reachable in
`Running` with its restart budget spent, an abnormal exit moves it to
`Failed` with `restart_count = m`, no `pid`, and the abnormal-exit
diagnostic (non-empty) as `failure_reason`; the `Failed` state is a fixed
point of the transition function, so no automatic restart ever occurs
from it. -/
theorem restart_budget_exhaustion_terminal
    (backoff : Nat → Duration) (name : String) (m : Nat)
    (window : Option Duration) (s : SupervisedService)
    (pid : Nat) (u : Duration) (w : Option Duration) (reason : String)
    (hreach : ReachableService backoff (initService name (some m) window) s)
    (hphase : s.phase = ServicePhase.running pid u w)
    (hspent : m ≤ s.restart_count)
    (hreason : reason ≠ "") :
    (renderStatus (stepService backoff s (.exitedAbnormally reason))).state =
      ServiceStateKind.Failed ∧
    (renderStatus (stepService backoff s (.exitedAbnormally reason))).restart_count = m ∧
    (renderStatus (stepService backoff s (.exitedAbnormally reason))).pid = none ∧
    (renderStatus (stepService backoff s (.exitedAbnormally reason))).failure_reason =
      some reason ∧
    reason ≠ "" ∧
    (∀ e, stepService backoff (stepService backoff s (.exitedAbnormally reason)) e =
      stepService backoff s (.exitedAbnormally reason)) := by
  obtain ⟨hmax, hle⟩ := reachableService_budget backoff _ s m hreach
    (by simp [initService]) (by simp [initService])
  have hcount : s.restart_count = m := le_antisymm hle hspent
  have hexh : restartBudgetExhausted s = true := by
    simp [restartBudgetExhausted, hmax, hspent]
  have hstep : stepService backoff s (.exitedAbnormally reason) =
      { s with phase := .failed reason, last_failure := some reason } := by
    rcases s with ⟨sn, sm, sc, sw2, sl, sp⟩
    simp only at hphase
    subst hphase
    simp [stepService, hexh]
  rw [hstep]
  refine ⟨rfl, hcount, rfl, rfl, hreason, ?_⟩
  intro e
  cases e <;> rfl

/-- Witness for C5: the "worker-a" scenario — after three crashes with
`max_restarts = 3` the service runs with its budget spent; the next
abnormal exit lands in `Failed` with `restart_count = 3` and no pid. -/
theorem restart_budget_exhaustion_terminal_witness :
    workerFinal.phase = ServicePhase.running 103 ⟨0, 0⟩ none ∧
    3 ≤ workerFinal.restart_count ∧
    (renderStatus (stepService demoBackoff workerFinal
      (.exitedAbnormally "crash 4"))).state = ServiceStateKind.Failed ∧
    (renderStatus (stepService demoBackoff workerFinal
      (.exitedAbnormally "crash 4"))).restart_count = 3 ∧
    (renderStatus (stepService demoBackoff workerFinal
      (.exitedAbnormally "crash 4"))).pid = none := by
  have hreach : ReachableService demoBackoff (initService "worker-a" (some 3) none)
      workerFinal :=
    reachableService_foldl demoBackoff (initService "worker-a" (some 3) none)
      workerEvents
  have h := restart_budget_exhaustion_terminal demoBackoff "worker-a" 3 none
    workerFinal 103 ⟨0, 0⟩ none "crash 4" hreach (by decide) (by decide) (by decide)
  exact ⟨by decide, by decide, h.1, h.2.1, h.2.2.1⟩

/-- C6: encoding then decoding any `StatusResponse`,
`AggregatedUsageStats`, or `AggregatedToolHistory` yields the original
value; a `ToolCallRecord` with `duration_ms` absent has no
`duration_ms` key on the wire (omitted, not null) and still round-trips
to an absent `duration_ms`. -/
theorem response_roundtrip :
    (∀ r : StatusResponse,
      decodeStatusResponse (encodeStatusResponse r) = some r) ∧
    (∀ a : AggregatedUsageStats,
      decodeAggregatedUsageStats (encodeAggregatedUsageStats a) = some a) ∧
    (∀ a : AggregatedToolHistory,
      decodeAggregatedToolHistory (encodeAggregatedToolHistory a) = some a) ∧
    (∀ rec : ToolCallRecord, rec.duration_ms = none →
      "duration_ms" ∉ (encodeToolCallRecord rec).keys ∧
      decodeToolCallRecord (encodeToolCallRecord rec) = some rec) := by
  refine ⟨encdec_StatusResponse, encdec_AggregatedUsageStats,
    encdec_AggregatedToolHistory, ?_⟩
  intro rec hnone
  refine ⟨?_, encdec_ToolCallRecord rec⟩
  simp [encodeToolCallRecord, Json.keys, hnone]

/-- Witness for C6: a concrete record without a duration round-trips and
its wire object carries no `duration_ms` key. -/
theorem response_roundtrip_witness :
    demoRecord.duration_ms = none ∧
    "duration_ms" ∉ (encodeToolCallRecord demoRecord).keys ∧
    decodeToolCallRecord (encodeToolCallRecord demoRecord) = some demoRecord := by
  have h := response_roundtrip.2.2.2 demoRecord rfl
  exact ⟨rfl, h.1, h.2⟩

/-- C10: on the wire, every type's declared fields appear under their
names; every optional field other than `ToolCallRecord.duration_ms`
(`error` on the two per-server records and the six optionals of
`ServiceStatus`) is encoded as an explicit `null` when absent; and
`duration_ms` alone is omitted from the object when absent, appearing
only when set. -/
theorem wire_optional_field_encoding
    (s : ServerStats) (h : ServerToolHistory) (st : ServiceStatus)
    (r : ToolCallRecord) (u : UsageStatsSnapshot) (g : GlobalAggregates)
    (a : AggregatedUsageStats) (t : AggregatedToolHistory)
    (resp : StatusResponse) (d : Nat) :
    (encodeServerStats s).keys =
      ["category", "port", "available", "error", "stats"] ∧
    (encodeServerToolHistory h).keys =
      ["category", "port", "available", "error", "calls"] ∧
    (encodeServiceStatus st).keys =
      ["name", "state", "pid", "uptime", "restart_count", "max_restarts",
       "next_restart_delay", "success_window_remaining", "failure_reason"] ∧
    (encodeUsageStatsSnapshot u).keys =
      ["total_tool_calls", "successful_calls", "failed_calls", "tool_counts",
       "first_used", "last_used", "total_sessions"] ∧
    (encodeGlobalAggregates g).keys =
      ["total_tool_calls", "successful_calls", "failed_calls", "success_rate",
       "total_sessions", "categories_active"] ∧
    (encodeAggregatedUsageStats a).keys =
      ["aggregated_at", "servers_queried", "servers_failed", "servers",
       "global"] ∧
    (encodeAggregatedToolHistory t).keys =
      ["aggregated_at", "connection_id", "servers_queried", "servers_failed",
       "servers", "total_calls"] ∧
    (encodeStatusResponse resp).keys =
      ["daemon_running", "daemon_pid", "daemon_uptime", "services"] ∧
    (s.error = none →
      (encodeServerStats s).fieldVal "error" = some Json.null) ∧
    (h.error = none →
      (encodeServerToolHistory h).fieldVal "error" = some Json.null) ∧
    (st.pid = none →
      (encodeServiceStatus st).fieldVal "pid" = some Json.null) ∧
    (st.uptime = none →
      (encodeServiceStatus st).fieldVal "uptime" = some Json.null) ∧
    (st.max_restarts = none →
      (encodeServiceStatus st).fieldVal "max_restarts" = some Json.null) ∧
    (st.next_restart_delay = none →
      (encodeServiceStatus st).fieldVal "next_restart_delay" = some Json.null) ∧
    (st.success_window_remaining = none →
      (encodeServiceStatus st).fieldVal "success_window_remaining" =
        some Json.null) ∧
    (st.failure_reason = none →
      (encodeServiceStatus st).fieldVal "failure_reason" = some Json.null) ∧
    (r.duration_ms = none → (encodeToolCallRecord r).keys =
      ["timestamp", "tool_name", "args_json", "output_json"]) ∧
    (r.duration_ms = some d → (encodeToolCallRecord r).keys =
      ["timestamp", "tool_name", "args_json", "output_json", "duration_ms"]) := by
  refine ⟨rfl, rfl, rfl, rfl, rfl, rfl, rfl, rfl,
    ?_, ?_, ?_, ?_, ?_, ?_, ?_, ?_, ?_, ?_⟩ <;>
    intro hx <;>
    simp [encodeServerStats, encodeServerToolHistory, encodeServiceStatus,
      encodeToolCallRecord, Json.fieldVal, Json.keys, encodeOpt, hx, List.lookup]

/-- Witness for C10: a concrete all-optionals-absent `ServiceStatus`
null-encodes `pid`, a concrete available server record null-encodes no
`error` value other than `null`, and a concrete record without a
duration omits the `duration_ms` key. -/
theorem wire_optional_field_encoding_witness :
    (encodeServerStats (mkServerStats demoCandidate demoOkResult)).fieldVal
      "error" = some Json.null ∧
    (encodeServiceStatus demoIdleStatus).fieldVal "pid" = some Json.null ∧
    (encodeToolCallRecord demoRecord).keys =
      ["timestamp", "tool_name", "args_json", "output_json"] := by
  obtain ⟨_, _, _, _, _, _, _, _, h9, _, h11, _, _, _, _, _, h17, _⟩ :=
    wire_optional_field_encoding (mkServerStats demoCandidate demoOkResult)
      (mkServerToolHistory demoCandidate demoHistErr) demoIdleStatus demoRecord
      demoSnapshot demoGlobal demoAggregatedUsage demoAggregatedHistory
      demoStatusResponse 5
  exact ⟨h9 rfl, h11 rfl, h17 rfl⟩

end KodegendIpc
